import Mathlib

/-!
Verification of the Assetman lifecycle engine (`app/main.py`, `app/schemas.py`,
`app/auth.py`) against its specification.

The Python code is shallowly embedded: the relational store is a record of
association lists, each HTTP handler becomes a function from the database
state and the (already parsed) payload to the new state together with an
`Except`-style verdict, and the pydantic payload validators are inlined at
the head of the corresponding handler (they run before the handler body).
Timestamps (`datetime`) are embedded as integers, dates as naturals.
-/

namespace Assetman

/-- Error taxonomy of the API, one constructor per distinct rejection reason
surfaced by `app/main.py` and the pydantic validators in `app/schemas.py`. -/
inductive ApiError where
  /-- 400 'No fields to update' (also pydantic 'No fields provided for update'). -/
  | emptyUpdate
  /-- 404 'Asset not found'. -/
  | assetNotFound
  /-- 404 'Assignment not found'. -/
  | assignmentNotFound
  /-- 400 'Invalid status_id' raised by `get_status_name`. -/
  | unknownStatus
  /-- 400 'Cannot transition from {fromName} to {toName}' in `update_asset`. -/
  | invalidTransition (fromName toName : String)
  /-- pydantic 'Either person_id or location_id must be provided'. -/
  | missingTarget
  /-- pydantic 'assigned_to must be greater than assigned_from'. -/
  | invalidRange
  /-- 400 'Asset is retired' in `create_assignment`. -/
  | assetRetired
  /-- 403 'Forbidden' from `require_role`. -/
  | forbidden
  deriving DecidableEq

deriving instance DecidableEq for Except

/-- `ALLOWED_STATUS_TRANSITIONS` from `app/main.py` lines 12-17: for each
current status name, the set of status names it may transition to. -/
def ALLOWED_STATUS_TRANSITIONS : List (String × List String) :=
  [("in_stock", ["in_use", "repair", "retired"]),
   ("in_use", ["in_stock", "repair", "retired"]),
   ("repair", ["in_use", "retired"]),
   ("retired", [])]

/-- `ALLOWED_STATUS_TRANSITIONS.get(current_status_name, set())` in
`update_asset`. -/
def allowedNext (table : List (String × List String)) (fromName : String) :
    List String :=
  (table.lookup fromName).getD []

/-- The status-change validation performed inline by `update_asset`
(`app/main.py` lines 675-680), parameterised by the transition table it
consults: reject with `invalidTransition` unless the new name is allowed
from the current one or equals it. -/
def validateStatusChangeWith (table : List (String × List String))
    (currentName newName : String) : Except ApiError Unit :=
  if newName ∉ allowedNext table currentName ∧ newName ≠ currentName then
    .error (.invalidTransition currentName newName)
  else
    .ok ()

/-- The status-change validation exactly as run by `PUT /assets/{id}`. -/
def validateStatusChange (currentName newName : String) :
    Except ApiError Unit :=
  validateStatusChangeWith ALLOWED_STATUS_TRANSITIONS currentName newName

/-- The four status names of the state set (section 4.1 of the spec). -/
def STATUS_NAMES : List String := ["in_stock", "in_use", "repair", "retired"]

/-- Modelled from the spec's transition table (section 4.1), used as the
reference against which the code's table is compared. -/
def specAllowedNext : String → List String
  | "in_stock" => ["in_use", "repair", "retired"]
  | "in_use" => ["in_stock", "repair", "retired"]
  | "repair" => ["in_use", "retired"]
  | _ => []

/-- C1: for every pair of known status names, `validateStatusChange` accepts
iff the target equals the source or is in the spec's allowed-set for the
source; every rejection is `invalidTransition` naming the pair; and
`retired` admits no outgoing transition other than the self-transition. -/
theorem validateStatusChange_spec :
    ∀ f ∈ STATUS_NAMES, ∀ t ∈ STATUS_NAMES,
      (validateStatusChange f t = .ok () ↔ (t = f ∨ t ∈ specAllowedNext f)) ∧
      (validateStatusChange f t ≠ .ok () →
        validateStatusChange f t = .error (.invalidTransition f t)) ∧
      (f = "retired" → t ≠ f →
        validateStatusChange f t = .error (.invalidTransition f t)) := by
  decide

/-- Witness for C1 at a concrete pair: the terminal state rejects. -/
theorem validateStatusChange_spec_witness :
    validateStatusChange "retired" "in_use" =
      .error (.invalidTransition "retired" "in_use") :=
  (validateStatusChange_spec "retired" (by decide) "in_use" (by decide)).2.2
    (by decide) (by decide)

/-- A row of `itam.assets` (columns of the INSERT in `create_asset`);
the key `asset_id` is kept outside, in the association list. -/
structure Asset where
  asset_tag : String
  type_id : Nat
  status_id : Nat
  manufacturer : Option String := none
  model : Option String := none
  serial_number : Option String := none
  description : Option String := none
  purchase_date : Option Nat := none
  purchase_price : Option Int := none
  currency : Option String := none
  warranty_end : Option Nat := none
  owner_org_unit_id : Option Nat := none
  notes : Option String := none
  deriving DecidableEq

/-- `AssetUpdate` from `app/schemas.py`: every column optional; `none`
stands for a field absent from the payload (`model_dump(exclude_none=True)`
drops it). -/
structure AssetUpdate where
  asset_tag : Option String := none
  type_id : Option Nat := none
  status_id : Option Nat := none
  manufacturer : Option String := none
  model : Option String := none
  serial_number : Option String := none
  description : Option String := none
  purchase_date : Option Nat := none
  purchase_price : Option Int := none
  currency : Option String := none
  warranty_end : Option Nat := none
  owner_org_unit_id : Option Nat := none
  notes : Option String := none
  deriving DecidableEq

/-- `any(value is not None for value in ...)`: the payload has at least one
field set (negation of the `No fields to update` condition). -/
def AssetUpdate.hasField (p : AssetUpdate) : Bool :=
  p.asset_tag.isSome || p.type_id.isSome || p.status_id.isSome ||
  p.manufacturer.isSome || p.model.isSome || p.serial_number.isSome ||
  p.description.isSome || p.purchase_date.isSome ||
  p.purchase_price.isSome || p.currency.isSome || p.warranty_end.isSome ||
  p.owner_org_unit_id.isSome || p.notes.isSome

/-- `exclude_none` update of a nullable column: a provided value
overwrites, an absent payload field keeps the stored value (so NULL can
never be written back through these endpoints). -/
def patch (new old : Option α) : Option α :=
  match new with
  | some v => some v
  | none => old

/-- The dynamic `UPDATE itam.assets SET ...` built from the non-`None`
payload fields: each provided field overwrites the column, the rest keep
their value. -/
def applyAssetUpdate (a : Asset) (p : AssetUpdate) : Asset :=
  { asset_tag := p.asset_tag.getD a.asset_tag
    type_id := p.type_id.getD a.type_id
    status_id := p.status_id.getD a.status_id
    manufacturer := patch p.manufacturer a.manufacturer
    model := patch p.model a.model
    serial_number := patch p.serial_number a.serial_number
    description := patch p.description a.description
    purchase_date := patch p.purchase_date a.purchase_date
    purchase_price := patch p.purchase_price a.purchase_price
    currency := patch p.currency a.currency
    warranty_end := patch p.warranty_end a.warranty_end
    owner_org_unit_id := patch p.owner_org_unit_id a.owner_org_unit_id
    notes := patch p.notes a.notes }

/-- A row of `itam.asset_assignments` (key outside). `assigned_from` is
never NULL (the INSERT coalesces it to `now()`); `assigned_to = none` means
the assignment is still open. -/
structure Assignment where
  asset_id : Nat
  person_id : Option Nat := none
  location_id : Option Nat := none
  assigned_from : Int
  assigned_to : Option Int := none
  purpose : Option String := none
  notes : Option String := none
  deriving DecidableEq

/-- `AssignmentCreate` from `app/schemas.py` (its two `model_validator`
checks are inlined at the head of `create_assignment` below, since pydantic
runs them before the handler body). -/
structure AssignmentCreate where
  asset_id : Nat
  person_id : Option Nat := none
  location_id : Option Nat := none
  assigned_from : Option Int := none
  assigned_to : Option Int := none
  purpose : Option String := none
  notes : Option String := none
  deriving DecidableEq

/-- `AssignmentUpdate` from `app/schemas.py`: the only updatable fields of
an assignment. Unknown payload keys are ignored by pydantic, so they can
never reach the UPDATE statement. -/
structure AssignmentUpdate where
  assigned_to : Option Int := none
  purpose : Option String := none
  notes : Option String := none
  deriving DecidableEq

/-- Non-empty-payload test for `AssignmentUpdate` (pydantic `ensure_any`,
re-checked as `if not data` in the handler). -/
def AssignmentUpdate.hasField (p : AssignmentUpdate) : Bool :=
  p.assigned_to.isSome || p.purpose.isSome || p.notes.isSome

/-- The database state visible to the lifecycle engine: the status lookup
table, the assets and the assignments, each keyed by their serial id, plus
the next value of the assignment id sequence. -/
structure DB where
  statuses : List (Nat × String)
  assets : List (Nat × Asset)
  assignments : List (Nat × Assignment)
  next_assignment_id : Nat
  deriving DecidableEq

/-- Apply `f` to the value stored under key `k` (the parameterised UPDATE
... WHERE clause on a keyed table). -/
def setEntry (k : Nat) (f : α → α) (l : List (Nat × α)) : List (Nat × α) :=
  l.map fun e => if e.1 = k then (e.1, f e.2) else e

/-- `get_status_name` (`app/main.py` lines 35-41): resolve a `status_id` to
its name, 400 'Invalid status_id' if it is unknown. -/
def get_status_name (db : DB) (status_id : Nat) : Except ApiError String :=
  match db.statuses.lookup status_id with
  | none => .error .unknownStatus
  | some n => .ok n

/-- `get_asset_status` (`app/main.py` lines 44-53): the JOIN against
`asset_status` yields no row when either the asset is missing or its
`status_id` has no row, so both cases are the 404. -/
def get_asset_status (db : DB) (asset_id : Nat) :
    Except ApiError (Nat × String) :=
  match db.assets.lookup asset_id with
  | none => .error .assetNotFound
  | some a =>
    match db.statuses.lookup a.status_id with
    | none => .error .assetNotFound
    | some n => .ok (a.status_id, n)

/-- The validation stage of `update_asset` (`app/main.py` lines 668-680),
parameterised by the transition table it consults: empty-payload check,
current-status read, then — only when the payload carries a `status_id` —
status-name resolution and the transition check. -/
def update_assetChecks (table : List (String × List String)) (db : DB)
    (asset_id : Nat) (p : AssetUpdate) : Except ApiError Unit :=
  if !p.hasField then .error .emptyUpdate
  else do
    let (_, currentName) ← get_asset_status db asset_id
    match p.status_id with
    | none => pure ()
    | some sid => do
      let newName ← get_status_name db sid
      validateStatusChangeWith table currentName newName

/-- `PUT /assets/{id}` (`update_asset`): the checks above run strictly
before the UPDATE; the database is written only when they all pass, and
each rejection returns it unchanged. -/
def update_assetWith (table : List (String × List String)) (db : DB)
    (asset_id : Nat) (p : AssetUpdate) : DB × Except ApiError Nat :=
  match update_assetChecks table db asset_id p with
  | .error e => (db, .error e)
  | .ok () =>
    ({ db with
        assets := setEntry asset_id (fun a => applyAssetUpdate a p)
          db.assets },
      .ok asset_id)

/-- `PUT /assets/{id}` exactly as deployed. -/
def update_asset (db : DB) (asset_id : Nat) (p : AssetUpdate) :
    DB × Except ApiError Nat :=
  update_assetWith ALLOWED_STATUS_TRANSITIONS db asset_id p

/-- pydantic `ensure_range`: both endpoints supplied (a `datetime` is always
truthy) and `assigned_to <= assigned_from`. -/
def rangeInvalid (p : AssignmentCreate) : Bool :=
  match p.assigned_to, p.assigned_from with
  | some t, some f => decide (t ≤ f)
  | _, _ => false

/-- The row inserted by `create_assignment`: `COALESCE(%s, now())` defaults
a missing `assigned_from` to the commit-time clock `now`. -/
def mkAssignmentRow (now : Int) (p : AssignmentCreate) : Assignment :=
  { asset_id := p.asset_id
    person_id := p.person_id
    location_id := p.location_id
    assigned_from := p.assigned_from.getD now
    assigned_to := p.assigned_to
    purpose := p.purpose
    notes := p.notes }

/-- `POST /assignments` (`create_assignment`) with the pydantic validators
of `AssignmentCreate` inlined first, in their definition order: target
check, range check, then the handler's retired-status check, then the
INSERT. -/
def create_assignment (db : DB) (now : Int) (p : AssignmentCreate) :
    DB × Except ApiError Nat :=
  if p.person_id = none ∧ p.location_id = none then
    (db, .error .missingTarget)
  else if rangeInvalid p then
    (db, .error .invalidRange)
  else
    match get_asset_status db p.asset_id with
    | .error e => (db, .error e)
    | .ok (_, statusName) =>
      if statusName = "retired" then (db, .error .assetRetired)
      else
        ({ db with
            assignments :=
              db.assignments ++ [(db.next_assignment_id, mkAssignmentRow now p)]
            next_assignment_id := db.next_assignment_id + 1 },
          .ok db.next_assignment_id)

/-- The dynamic `UPDATE itam.asset_assignments SET ...`: each of the three
provided fields overwrites its column, absent fields keep their value. -/
def applyAssignmentUpdate (a : Assignment) (p : AssignmentUpdate) :
    Assignment :=
  { asset_id := a.asset_id
    person_id := a.person_id
    location_id := a.location_id
    assigned_from := a.assigned_from
    assigned_to := patch p.assigned_to a.assigned_to
    purpose := patch p.purpose a.purpose
    notes := patch p.notes a.notes }

/-- `PUT /assignments/{id}` (`update_assignment`): empty-payload check,
then the UPDATE, 404 when the id matches no row. -/
def update_assignment (db : DB) (assignment_id : Nat)
    (p : AssignmentUpdate) : DB × Except ApiError Nat :=
  if !p.hasField then (db, .error .emptyUpdate)
  else
    match db.assignments.lookup assignment_id with
    | none => (db, .error .assignmentNotFound)
    | some _ =>
      ({ db with
          assignments := setEntry assignment_id
            (fun a => applyAssignmentUpdate a p) db.assignments },
        .ok assignment_id)

/-- Looking up the updated key after a keyed UPDATE returns the transformed
value. -/
theorem lookup_setEntry (k : Nat) (f : α → α) (l : List (Nat × α)) :
    (setEntry k f l).lookup k = (l.lookup k).map f := by
  induction l with
  | nil => rfl
  | cons e t ih =>
    obtain ⟨i, a⟩ := e
    by_cases h : i = k
    · subst h
      have hmap : setEntry i f ((i, a) :: t) = (i, f a) :: setEntry i f t := by
        simp [setEntry]
      rw [hmap, List.lookup_cons_self, List.lookup_cons_self]
      rfl
    · have hmap : setEntry k f ((i, a) :: t) = (i, a) :: setEntry k f t := by
        simp [setEntry, h]
      have h' : (k == i) = false := by simp [Ne.symm h]
      rw [hmap, List.lookup_cons, List.lookup_cons, h']
      exact ih

/-- A payload that requests a status change is not empty. -/
theorem hasField_of_status {p : AssetUpdate} {sid : Nat}
    (hs : p.status_id = some sid) : p.hasField = true := by
  unfold AssetUpdate.hasField
  simp [hs]

/-- C5: an asset update whose requested `status_id` matches no known status
is rejected with the `unknownStatus` error (400 'Invalid status_id'),
whatever transition table is in force — so the rejection is decided before
the table is consulted — and that error is distinct from every
`invalidTransition` error. -/
theorem update_asset_unknown_status (db : DB) (aid : Nat) (p : AssetUpdate)
    (sid : Nat) (st : Nat × String) (hs : p.status_id = some sid)
    (hmiss : db.statuses.lookup sid = none)
    (hasset : get_asset_status db aid = .ok st) :
    (∀ table, (update_assetWith table db aid p).2 = .error .unknownStatus) ∧
    (∀ f t, ApiError.unknownStatus ≠ .invalidTransition f t) := by
  constructor
  · intro table
    obtain ⟨s0, currentName⟩ := st
    simp [update_assetWith, update_assetChecks, hasField_of_status hs,
      hasset, hs, get_status_name, hmiss, bind, Except.bind]
  · intro f t
    simp

/-- Witness database for the unknown-status claim: one asset in `in_stock`,
status id 99 unknown. -/
def dbC5 : DB :=
  { statuses := [(1, "in_stock"), (2, "in_use"), (3, "repair"), (4, "retired")]
    assets := [(1, { asset_tag := "A-1", type_id := 1, status_id := 1 })]
    assignments := []
    next_assignment_id := 1 }

/-- Witness for C5 at a concrete request. -/
theorem update_asset_unknown_status_witness :
    (update_assetWith ALLOWED_STATUS_TRANSITIONS dbC5 1
        { status_id := some 99 }).2 = .error .unknownStatus :=
  (update_asset_unknown_status dbC5 1 { status_id := some 99 } 99
      (1, "in_stock") rfl (by decide) (by decide)).1
    ALLOWED_STATUS_TRANSITIONS

/-- C6: the transition check of `PUT /assets/{id}` is consulted only when
the payload carries a status change (without one, the outcome is the same
under any transition table); every rejection — invalid transition, unknown
status, empty payload, missing asset — leaves the database unchanged; and
a disallowed transition is rejected with `invalidTransition` before any
write happens. -/
theorem update_asset_check_before_write (db : DB) (aid : Nat)
    (p : AssetUpdate) :
    (p.status_id = none → ∀ table₁ table₂,
      update_assetWith table₁ db aid p = update_assetWith table₂ db aid p) ∧
    (∀ table e, (update_assetWith table db aid p).2 = .error e →
      (update_assetWith table db aid p).1 = db) ∧
    (∀ sid s0 currentName newName,
      p.status_id = some sid →
      get_asset_status db aid = .ok (s0, currentName) →
      get_status_name db sid = .ok newName →
      newName ∉ allowedNext ALLOWED_STATUS_TRANSITIONS currentName →
      newName ≠ currentName →
      update_asset db aid p =
        (db, .error (.invalidTransition currentName newName))) := by
  refine ⟨fun hs table₁ table₂ => ?_, fun table e he => ?_, ?_⟩
  · simp [update_assetWith, update_assetChecks, hs]
  · revert he
    unfold update_assetWith
    cases update_assetChecks table db aid p with
    | error e' => intro _; rfl
    | ok u => cases u; intro he; cases he
  · intro sid s0 currentName newName hs hst hname hnall hne
    simp [update_asset, update_assetWith, update_assetChecks,
      hasField_of_status hs, hst, hs, hname, bind, Except.bind,
      validateStatusChangeWith, hnall, hne]

/-- Witness database with a `retired` asset. -/
def dbC6 : DB :=
  { statuses := [(1, "in_stock"), (2, "in_use"), (3, "repair"), (4, "retired")]
    assets := [(1, { asset_tag := "A-2", type_id := 1, status_id := 4 })]
    assignments := []
    next_assignment_id := 1 }

/-- Witness for C6 at concrete requests: a non-status update is independent
of the table, and a `retired` asset rejects a move to `in_use` with the
database unchanged. -/
theorem update_asset_check_before_write_witness :
    (update_assetWith [] dbC6 1 { notes := some "n" } =
      update_assetWith ALLOWED_STATUS_TRANSITIONS dbC6 1
        { notes := some "n" }) ∧
    update_asset dbC6 1 { status_id := some 2, notes := some "n" } =
      (dbC6, .error (.invalidTransition "retired" "in_use")) := by
  constructor
  · exact (update_asset_check_before_write dbC6 1 { notes := some "n" }).1
      rfl [] ALLOWED_STATUS_TRANSITIONS
  · exact (update_asset_check_before_write dbC6 1
        { status_id := some 2, notes := some "n" }).2.2 2 4 "retired"
      "in_use" rfl (by decide) (by decide) (by decide) (by decide)

/-- Database with a single `retired` asset, for the assignment claims. -/
def dbRetired : DB :=
  { statuses := [(1, "in_stock"), (2, "in_use"), (3, "repair"), (4, "retired")]
    assets := [(1, { asset_tag := "A-3", type_id := 1, status_id := 4 })]
    assignments := []
    next_assignment_id := 1 }

/-- C2 counterexample: for a `retired` asset and a payload with neither
`person_id` nor `location_id`, the request is rejected with the pydantic
`missingTarget` error, not with `assetRetired` — so "rejects with
AssetRetired whenever the status is retired, regardless of the rest of the
payload" fails: the schema checks run first. -/
theorem create_assignment_retired_cex :
    get_asset_status dbRetired 1 = .ok (4, "retired") ∧
    (create_assignment dbRetired 0 { asset_id := 1 }).2 =
      .error .missingTarget ∧
    ApiError.missingTarget ≠ ApiError.assetRetired := by
  decide

/-- C2 amended: the validation of `POST /assignments` rejects with
`missingTarget` when both targets are absent; otherwise with
`invalidRange` when both endpoints are supplied out of order; otherwise
with `assetRetired` when the asset's status name is `retired`; and accepts
in every other case (no other status blocks creation). -/
theorem create_assignment_validation (db : DB) (now : Int)
    (p : AssignmentCreate) (sid : Nat) (statusName : String)
    (hst : get_asset_status db p.asset_id = .ok (sid, statusName)) :
    (create_assignment db now p).2 =
      if p.person_id = none ∧ p.location_id = none then
        .error .missingTarget
      else if rangeInvalid p then .error .invalidRange
      else if statusName = "retired" then .error .assetRetired
      else .ok db.next_assignment_id := by
  unfold create_assignment
  rw [hst]
  by_cases h₁ : p.person_id = none ∧ p.location_id = none
  · simp [h₁]
  · by_cases h₂ : rangeInvalid p
    · simp [h₁, h₂]
    · by_cases h₃ : statusName = "retired" <;> simp [h₁, h₂, h₃]

/-- The range check fires exactly on out-of-order supplied endpoints. -/
theorem rangeInvalid_iff (p : AssignmentCreate) :
    rangeInvalid p = true ↔
      ∃ t f, p.assigned_to = some t ∧ p.assigned_from = some f ∧ t ≤ f := by
  unfold rangeInvalid
  cases p.assigned_to <;> cases p.assigned_from <;> simp

/-- Witness for C2 (amended) at concrete requests against the retired
asset: a well-formed payload is rejected as `assetRetired`, an out-of-order
range as `invalidRange`. -/
theorem create_assignment_validation_witness :
    (create_assignment dbRetired 0
        { asset_id := 1, person_id := some 9 }).2 = .error .assetRetired ∧
    (create_assignment dbRetired 0
        { asset_id := 1, person_id := some 9, assigned_from := some 5,
          assigned_to := some 5 }).2 = .error .invalidRange := by
  constructor
  · rw [create_assignment_validation dbRetired 0
      { asset_id := 1, person_id := some 9 } 4 "retired" (by decide)]
    decide
  · rw [create_assignment_validation dbRetired 0
      { asset_id := 1, person_id := some 9, assigned_from := some 5,
        assigned_to := some 5 } 4 "retired" (by decide)]
    decide

/-- Database with one well-formed assignment (from 5, to 20), for C3. -/
def dbAssigned : DB :=
  { statuses := [(1, "in_stock"), (2, "in_use"), (3, "repair"), (4, "retired")]
    assets := [(1, { asset_tag := "A-4", type_id := 1, status_id := 1 })]
    assignments := [(1,
      { asset_id := 1
        person_id := some 7
        assigned_from := 5
        assigned_to := some 20 })]
    next_assignment_id := 2 }

/-- C3 counterexample: `PUT /assignments/{id}` accepts a payload that sets
`assigned_to` below the stored `assigned_from`, so the row invariant
`assigned_to > assigned_from` is not preserved by every operation. -/
theorem assignment_range_invariant_cex :
    (update_assignment dbAssigned 1 { assigned_to := some 3 }).2 = .ok 1 ∧
    (update_assignment dbAssigned 1
        { assigned_to := some 3 }).1.assignments.lookup 1 =
      some
        { asset_id := 1
          person_id := some 7
          assigned_from := 5
          assigned_to := some 3 } ∧
    ¬ ((5 : Int) < 3) := by
  decide

/-- C3 amended: creation does enforce the invariant when `assigned_from`
is supplied explicitly: if `POST /assignments` accepts such a payload, the
inserted row has `assigned_to > assigned_from` whenever `assigned_to` is
set. (With `assigned_from` defaulted to the commit clock, and under
assignment updates, the invariant can be violated.) -/
theorem create_assignment_range_invariant (db : DB) (now : Int)
    (p : AssignmentCreate) (i : Nat) (f : Int)
    (hok : (create_assignment db now p).2 = .ok i)
    (hf : p.assigned_from = some f) :
    (create_assignment db now p).1.assignments =
      db.assignments ++ [(db.next_assignment_id, mkAssignmentRow now p)] ∧
    ∀ t, (mkAssignmentRow now p).assigned_to = some t →
      (mkAssignmentRow now p).assigned_from < t := by
  have hrange : rangeInvalid p = false := by
    revert hok
    unfold create_assignment
    by_cases h₁ : p.person_id = none ∧ p.location_id = none
    · simp [h₁]
    · by_cases h₂ : rangeInvalid p
      · simp [h₁, h₂]
      · simp [h₂]
  constructor
  · revert hok
    unfold create_assignment
    by_cases h₁ : p.person_id = none ∧ p.location_id = none
    · simp [h₁]
    · cases h : get_asset_status db p.asset_id with
      | error e => simp [h₁, hrange, h]
      | ok s =>
        obtain ⟨s0, n⟩ := s
        by_cases h₃ : n = "retired" <;> simp [h₁, hrange, h, h₃]
  · intro t ht
    simp only [mkAssignmentRow, hf, Option.getD_some] at ht ⊢
    unfold rangeInvalid at hrange
    rw [ht, hf] at hrange
    simp at hrange
    omega

/-- Witness for C3 (amended): a creation with explicit endpoints 5 < 9
succeeds and its inserted row satisfies the invariant. -/
theorem create_assignment_range_invariant_witness :
    ((create_assignment dbAssigned 0
        { asset_id := 1, person_id := some 9, assigned_from := some 5,
          assigned_to := some 9 }).1.assignments =
      dbAssigned.assignments ++ [(2, mkAssignmentRow 0
        { asset_id := 1, person_id := some 9, assigned_from := some 5,
          assigned_to := some 9 })]) ∧
    (5 : Int) < 9 := by
  have h := create_assignment_range_invariant dbAssigned 0
    { asset_id := 1, person_id := some 9, assigned_from := some 5,
      assigned_to := some 9 } 2 5 (by decide) rfl
  exact ⟨h.1, h.2 9 rfl⟩

/-- C10: an accepted `PUT /assignments/{id}` stores exactly the patched
row, and the patch can only touch `assigned_to`, `purpose` and `notes`:
`asset_id`, `person_id`, `location_id` and `assigned_from` are unchanged
(fields outside the schema trio never reach the UPDATE). -/
theorem update_assignment_frame (db : DB) (aid : Nat)
    (p : AssignmentUpdate) (a : Assignment)
    (ha : db.assignments.lookup aid = some a)
    (hp : p.hasField = true) :
    (update_assignment db aid p).2 = .ok aid ∧
    (update_assignment db aid p).1.assignments.lookup aid =
      some (applyAssignmentUpdate a p) ∧
    (applyAssignmentUpdate a p).asset_id = a.asset_id ∧
    (applyAssignmentUpdate a p).person_id = a.person_id ∧
    (applyAssignmentUpdate a p).location_id = a.location_id ∧
    (applyAssignmentUpdate a p).assigned_from = a.assigned_from := by
  unfold update_assignment
  rw [hp, ha]
  refine ⟨rfl, ?_, rfl, rfl, rfl, rfl⟩
  simp [lookup_setEntry, ha]

/-- Witness for C10: updating the purpose of the stored assignment keeps
its target and start time. -/
theorem update_assignment_frame_witness :
    (update_assignment dbAssigned 1 { purpose := some "loan" }).2 =
      .ok 1 ∧
    (update_assignment dbAssigned 1
        { purpose := some "loan" }).1.assignments.lookup 1 =
      some (applyAssignmentUpdate
        { asset_id := 1, person_id := some 7, assigned_from := 5,
          assigned_to := some 20 } { purpose := some "loan" }) := by
  have h := update_assignment_frame dbAssigned 1 { purpose := some "loan" }
    { asset_id := 1, person_id := some 7, assigned_from := 5,
      assigned_to := some 20 } (by decide) (by decide)
  exact ⟨h.1, h.2.1⟩

/-- A resolved caller, as produced by the identity layer of `app/auth.py`. -/
structure User where
  username : String
  role : String
  deriving DecidableEq

/-- `require_role` from `app/auth.py` lines 121-127: 403 when the resolved
role is not in the endpoint's allowed list, otherwise pass the user
through. -/
def require_role (allowed : List String) (user : User) :
    Except ApiError User :=
  if user.role ∉ allowed then .error .forbidden else .ok user

/-- Role list of `GET /assets` (also the other read endpoints). -/
def list_assets_roles : List String := ["admin", "operator", "viewer"]

/-- Role list of `POST /assets`. -/
def create_asset_roles : List String := ["admin", "operator"]

/-- Role list of `PUT /assets/{id}`. -/
def update_asset_roles : List String := ["admin", "operator"]

/-- Role list of `DELETE /assets/{id}`. -/
def delete_asset_roles : List String := ["admin"]

/-- Role list of `POST /assignments`. -/
def create_assignment_roles : List String := ["admin", "operator"]

/-- Role list of `PUT /assignments/{id}`. -/
def update_assignment_roles : List String := ["admin", "operator"]

/-- Role list of `DELETE /assignments/{id}`. -/
def delete_assignment_roles : List String := ["admin"]

/-- C8: a viewer credential passes the gate of `GET /assets` but is
rejected with 403 by `POST /assets`; each write endpoint's gate passes
exactly the roles `admin` and `operator`; each hard-delete gate passes
exactly `admin`. -/
theorem require_role_endpoints (u r : String) :
    (require_role list_assets_roles ⟨u, "viewer"⟩ = .ok ⟨u, "viewer"⟩) ∧
    (require_role create_asset_roles ⟨u, "viewer"⟩ = .error .forbidden) ∧
    (require_role create_asset_roles ⟨u, r⟩ = .ok ⟨u, r⟩ ↔
      r = "admin" ∨ r = "operator") ∧
    (require_role update_asset_roles ⟨u, r⟩ = .ok ⟨u, r⟩ ↔
      r = "admin" ∨ r = "operator") ∧
    (require_role create_assignment_roles ⟨u, r⟩ = .ok ⟨u, r⟩ ↔
      r = "admin" ∨ r = "operator") ∧
    (require_role update_assignment_roles ⟨u, r⟩ = .ok ⟨u, r⟩ ↔
      r = "admin" ∨ r = "operator") ∧
    (require_role delete_asset_roles ⟨u, r⟩ = .ok ⟨u, r⟩ ↔ r = "admin") ∧
    (require_role delete_assignment_roles ⟨u, r⟩ = .ok ⟨u, r⟩ ↔
      r = "admin") := by
  refine ⟨?_, ?_, ?_, ?_, ?_, ?_, ?_, ?_⟩ <;>
    simp [require_role, list_assets_roles, create_asset_roles,
      update_asset_roles, delete_asset_roles, create_assignment_roles,
      update_assignment_roles, delete_assignment_roles] <;>
    by_cases h₁ : r = "admin" <;> by_cases h₂ : r = "operator" <;>
      simp [h₁, h₂]

/-- One row of the joined projection queried by `GET /assets`
(`app/main.py` lines 552-584): the asset columns, the names joined in from
the lookup tables, and the columns of the at-most-one open assignment
(`assigned_to IS NULL`); `owner_org_unit_id` and `owner` are the joined
`ou.org_unit_id` / `ou.name` (NULL when the asset has no org unit), and
`open_assignment_id`, `person`, `location` are NULL when no open
assignment exists. `updated_at` embeds the audit timestamp. -/
structure AssetRow where
  asset_id : Nat
  asset_tag : String
  type : String
  status : String
  manufacturer : Option String := none
  model : Option String := none
  serial_number : Option String := none
  description : Option String := none
  updated_at : Nat := 0
  owner_org_unit_id : Option Int := none
  owner : Option String := none
  open_assignment_id : Option Nat := none
  person : Option String := none
  location : Option String := none
  deriving DecidableEq

/-- `SORT_COLUMNS` from `app/main.py` lines 19-26: whitelisted sort keys
and the SQL column each maps to. -/
def SORT_COLUMNS : List (String × String) :=
  [("asset_tag", "a.asset_tag"),
   ("status", "ast.name"),
   ("type", "atype.name"),
   ("owner", "ou.name"),
   ("location", "loc.name"),
   ("updated", "a.updated_at")]

/-- `sort.lstrip('-')`: drop every leading dash, embedded on the string's
character list. -/
def lstripDash (s : String) : String :=
  ⟨s.data.dropWhile (· == '-')⟩

/-- `sort.startswith('-')`, embedded on the string's character list. -/
def startsWithDash (s : String) : Bool :=
  s.data.head? == some '-'

/-- `SORT_COLUMNS.get(sort.lstrip('-'), SORT_COLUMNS['asset_tag'])`. -/
def orderColumn (sort : String) : String :=
  (SORT_COLUMNS.lookup (lstripDash sort)).getD "a.asset_tag"

/-- `'DESC' if sort.startswith('-') else 'ASC'`. -/
def sortDesc (sort : String) : Bool :=
  startsWithDash sort

/-- Python truthiness of an optional string (`if q:`). -/
def optStrTruthy : Option String → Bool
  | none => false
  | some s => !s.isEmpty

/-- Python truthiness of an optional list (`if status:`). -/
def optListTruthy : Option (List String) → Bool
  | none => false
  | some l => !l.isEmpty

/-- Python truthiness of an optional integer (`if owner_org_unit_id:`). -/
def optIntTruthy : Option Int → Bool
  | none => false
  | some v => v != 0

/-- `column ILIKE '%q%'` on a nullable column: case-insensitive substring
match, never true on NULL. -/
def ilike (column : Option String) (q : String) : Bool :=
  match column with
  | none => false
  | some s => decide (List.IsInfix q.toLower.toList s.toLower.toList)

/-- The WHERE clause of `GET /assets` as a row predicate: each filter
contributes a conjunct only when its parameter is truthy, exactly as the
handler appends clauses. -/
def rowMatches (q : Option String) (status : Option (List String))
    (type : Option (List String)) (owner_org_unit_id : Option Int)
    (assigned : Option Bool) (r : AssetRow) : Bool :=
  (!optStrTruthy q ||
    (ilike (some r.asset_tag) (q.getD "") || ilike r.serial_number (q.getD "") ||
     ilike r.model (q.getD "") || ilike r.description (q.getD ""))) &&
  (!optListTruthy status || (status.getD []).contains r.status) &&
  (!optListTruthy type || (type.getD []).contains r.type) &&
  (!optIntTruthy owner_org_unit_id ||
    r.owner_org_unit_id == owner_org_unit_id) &&
  (match assigned with
   | some true => r.open_assignment_id.isSome
   | some false => r.open_assignment_id.isNone
   | none => true)

/-- A sort-column value: a non-null text column, a nullable text column,
or the timestamp column. -/
inductive ColVal where
  | s (v : String)
  | os (v : Option String)
  | n (v : Nat)
  deriving DecidableEq

/-- Comparator induced by a decidable linear order. -/
def cmpLin {α : Type} [LinearOrder α] (a b : α) : Ordering :=
  if a < b then .lt else if a = b then .eq else .gt

/-- Text collation of the datastore, embedded as the lexicographic order
on the string's character list. -/
def cmpStr (a b : String) : Ordering :=
  cmpLin a.data b.data

/-- Comparator on the timestamp column. -/
def cmpNat (a b : Nat) : Ordering :=
  cmpLin a b

/-- SQL ascending order on a nullable text column: NULLs sort last. -/
def cmpNullsLast (a b : Option String) : Ordering :=
  match a, b with
  | none, none => .eq
  | none, some _ => .gt
  | some _, none => .lt
  | some x, some y => cmpStr x y

/-- Rank used to order values of different kinds (never reached when both
values come from the same column). -/
def ColVal.rank : ColVal → Nat
  | .s _ => 0
  | .os _ => 1
  | .n _ => 2

/-- Comparison of two sort-column values. -/
def ColVal.cmp : ColVal → ColVal → Ordering
  | .s x, .s y => cmpStr x y
  | .os x, .os y => cmpNullsLast x y
  | .n x, .n y => cmpNat x y
  | x, y => cmpNat x.rank y.rank

/-- The value a row exposes under a given SQL sort column. -/
def colVal (col : String) (r : AssetRow) : ColVal :=
  if col = "ast.name" then .s r.status
  else if col = "atype.name" then .s r.type
  else if col = "ou.name" then .os r.owner
  else if col = "loc.name" then .os r.location
  else if col = "a.updated_at" then .n r.updated_at
  else .s r.asset_tag

/-- The primary `ORDER BY {order} {direction}` comparison: `DESC` reverses
the column comparison (including the NULL placement). -/
def primCmp (col : String) (desc : Bool) (a b : AssetRow) : Ordering :=
  match desc with
  | true => (colVal col b).cmp (colVal col a)
  | false => (colVal col a).cmp (colVal col b)

/-- `ORDER BY {order} {direction}, a.asset_tag ASC` as a comparator: the
asset-tag tie-break stays ascending whatever the direction. -/
def rowCmp (col : String) (desc : Bool) (a b : AssetRow) : Ordering :=
  (primCmp col desc a b).then (cmpStr a.asset_tag b.asset_tag)

/-- The non-strict row order used to sort the result set. -/
def rowLe (col : String) (desc : Bool) (a b : AssetRow) : Prop :=
  (rowCmp col desc a b).isLE = true

instance (col : String) (desc : Bool) : DecidableRel (rowLe col desc) :=
  fun a b => instDecidableEqBool (rowCmp col desc a b).isLE true

/-- `GET /assets` (`list_assets`): `rows` stands for the joined table; the
result is the WHERE-filtered rows sorted by the requested column and
direction with the ascending asset-tag tie-break. -/
def list_assets (rows : List AssetRow) (q : Option String)
    (status : Option (List String)) (type : Option (List String))
    (owner_org_unit_id : Option Int) (assigned : Option Bool)
    (sort : String) : List AssetRow :=
  (rows.filter (rowMatches q status type owner_org_unit_id assigned)).insertionSort
    (rowLe (orderColumn sort) (sortDesc sort))

/-- C9: filtering on owning org unit 0 is a no-op — `if owner_org_unit_id:`
is false on 0, so the listing equals the unfiltered one. -/
theorem list_assets_owner_zero (rows : List AssetRow) (q : Option String)
    (status : Option (List String)) (type : Option (List String))
    (assigned : Option Bool) (sort : String) :
    list_assets rows q status type (some 0) assigned sort =
      list_assets rows q status type none assigned sort := by
  unfold list_assets
  have hpred : rowMatches q status type (some 0) assigned =
      rowMatches q status type none assigned := by
    funext r
    simp [rowMatches, optIntTruthy]
  rw [hpred]

theorem cmpLin_lt_iff {α : Type} [LinearOrder α] {a b : α} :
    cmpLin a b = .lt ↔ a < b := by
  unfold cmpLin
  split_ifs with h₁ h₂ <;> simp [*]

theorem cmpLin_eq_iff {α : Type} [LinearOrder α] {a b : α} :
    cmpLin a b = .eq ↔ a = b := by
  unfold cmpLin
  split_ifs with h₁ h₂
  · simp [h₁.ne]
  · simp [h₂]
  · simp [h₂]

theorem cmpLin_gt_iff {α : Type} [LinearOrder α] {a b : α} :
    cmpLin a b = .gt ↔ b < a := by
  unfold cmpLin
  split_ifs with h₁ h₂
  · simp [lt_asymm h₁]
  · simp [h₂, lt_irrefl]
  · simp [lt_of_le_of_ne (not_lt.mp h₁) fun he => h₂ he.symm]

theorem cmpLin_isLE_iff {α : Type} [LinearOrder α] {a b : α} :
    (cmpLin a b).isLE = true ↔ a ≤ b := by
  unfold cmpLin
  split_ifs with h₁ h₂
  · simp [Ordering.isLE, h₁.le]
  · simp [Ordering.isLE, h₂.le]
  · simp [Ordering.isLE,
      not_le.mpr (lt_of_le_of_ne (not_lt.mp h₁) fun he => h₂ he.symm)]

theorem cmpLin_swap {α : Type} [LinearOrder α] (a b : α) :
    (cmpLin a b).swap = cmpLin b a := by
  rcases lt_trichotomy a b with h | h | h
  · rw [cmpLin_lt_iff.mpr h, cmpLin_gt_iff.mpr h]
    rfl
  · subst h
    rw [cmpLin_eq_iff.mpr rfl]
    rfl
  · rw [cmpLin_gt_iff.mpr h, cmpLin_lt_iff.mpr h]
    rfl

theorem cmpLin_lt_trans {α : Type} [LinearOrder α] {a b c : α}
    (h₁ : cmpLin a b = .lt) (h₂ : cmpLin b c = .lt) : cmpLin a c = .lt :=
  cmpLin_lt_iff.mpr (lt_trans (cmpLin_lt_iff.mp h₁) (cmpLin_lt_iff.mp h₂))

theorem cmpStr_eq_iff {a b : String} : cmpStr a b = .eq ↔ a = b := by
  unfold cmpStr
  rw [cmpLin_eq_iff]
  constructor
  · intro h
    exact congrArg String.mk h
  · intro h
    rw [h]

theorem cmpStr_isLE_iff {a b : String} :
    (cmpStr a b).isLE = true ↔ a ≤ b := by
  rw [String.le_iff_toList_le]
  exact cmpLin_isLE_iff

theorem cmpStr_swap (a b : String) : (cmpStr a b).swap = cmpStr b a :=
  cmpLin_swap a.data b.data

theorem cmpStr_lt_trans {a b c : String} (h₁ : cmpStr a b = .lt)
    (h₂ : cmpStr b c = .lt) : cmpStr a c = .lt :=
  cmpLin_lt_trans h₁ h₂

theorem cmpNullsLast_eq_iff {a b : Option String} :
    cmpNullsLast a b = .eq ↔ a = b := by
  cases a <;> cases b <;> simp [cmpNullsLast, cmpStr_eq_iff]

theorem cmpNullsLast_swap (a b : Option String) :
    (cmpNullsLast a b).swap = cmpNullsLast b a := by
  cases a <;> cases b <;>
    simp only [cmpNullsLast] <;>
    first
      | rfl
      | exact cmpStr_swap ..

theorem cmpNullsLast_lt_trans {a b c : Option String}
    (h₁ : cmpNullsLast a b = .lt) (h₂ : cmpNullsLast b c = .lt) :
    cmpNullsLast a c = .lt := by
  cases a <;> cases b <;> cases c <;>
    simp_all [cmpNullsLast]
  exact cmpStr_lt_trans h₁ h₂

theorem ColVal.cmp_eq_iff {x y : ColVal} : cmp x y = .eq ↔ x = y := by
  cases x <;> cases y <;>
    simp only [cmp, rank] <;>
    first
      | exact iff_of_false (by decide) (by simp)
      | simp [cmpStr_eq_iff, cmpNullsLast_eq_iff, cmpNat, cmpLin_eq_iff]

theorem ColVal.cmp_swap (x y : ColVal) : (cmp x y).swap = cmp y x := by
  cases x <;> cases y <;>
    simp only [cmp, rank] <;>
    first
      | exact cmpStr_swap ..
      | exact cmpNullsLast_swap ..
      | exact cmpLin_swap ..

theorem ColVal.cmp_lt_trans {x y z : ColVal} (h₁ : cmp x y = .lt)
    (h₂ : cmp y z = .lt) : cmp x z = .lt := by
  cases x <;> cases y <;> cases z <;>
    simp only [cmp, rank] at h₁ h₂ ⊢ <;>
    first
      | decide
      | exact absurd h₁ (by decide)
      | exact absurd h₂ (by decide)
      | exact cmpStr_lt_trans h₁ h₂
      | exact cmpNullsLast_lt_trans h₁ h₂
      | exact cmpLin_lt_trans h₁ h₂

theorem primCmp_swap (col : String) (desc : Bool) (a b : AssetRow) :
    (primCmp col desc a b).swap = primCmp col desc b a := by
  cases desc <;> simp only [primCmp] <;> exact ColVal.cmp_swap ..

theorem primCmp_eq_iff {col : String} {desc : Bool} {a b : AssetRow} :
    primCmp col desc a b = .eq ↔ colVal col a = colVal col b := by
  cases desc <;> simp only [primCmp] <;> rw [ColVal.cmp_eq_iff]
  exact eq_comm

theorem primCmp_lt_trans {col : String} {desc : Bool} {a b c : AssetRow}
    (h₁ : primCmp col desc a b = .lt) (h₂ : primCmp col desc b c = .lt) :
    primCmp col desc a c = .lt := by
  cases desc <;> simp only [primCmp] at h₁ h₂ ⊢
  · exact ColVal.cmp_lt_trans h₁ h₂
  · exact ColVal.cmp_lt_trans h₂ h₁

theorem primCmp_congr_left {col : String} {desc : Bool} {a b : AssetRow}
    (c : AssetRow) (h : colVal col a = colVal col b) :
    primCmp col desc a c = primCmp col desc b c := by
  cases desc <;> simp only [primCmp] <;> rw [h]

theorem primCmp_congr_right {col : String} {desc : Bool} {b c : AssetRow}
    (a : AssetRow) (h : colVal col b = colVal col c) :
    primCmp col desc a b = primCmp col desc a c := by
  cases desc <;> simp only [primCmp] <;> rw [h]

/-- Lexicographic composition: pass on a strict primary verdict, defer to
the secondary on a tie. -/
theorem then_isLE {o p : Ordering} :
    (o.then p).isLE = true ↔ o = .lt ∨ (o = .eq ∧ p.isLE = true) := by
  cases o <;> simp [Ordering.then, Ordering.isLE]

theorem rowLe_total (col : String) (desc : Bool) (a b : AssetRow) :
    rowLe col desc a b ∨ rowLe col desc b a := by
  unfold rowLe rowCmp
  rw [then_isLE, then_isLE]
  rcases h : primCmp col desc a b with _ | _ | _
  · exact Or.inl (Or.inl rfl)
  · have h' : primCmp col desc b a = .eq := by
      rw [← primCmp_swap, h]
      rfl
    rcases le_total a.asset_tag b.asset_tag with hle | hle
    · exact Or.inl (Or.inr ⟨rfl, cmpStr_isLE_iff.mpr hle⟩)
    · exact Or.inr (Or.inr ⟨h', cmpStr_isLE_iff.mpr hle⟩)
  · have h' : primCmp col desc b a = .lt := by
      rw [← primCmp_swap, h]
      rfl
    exact Or.inr (Or.inl h')

theorem rowLe_trans (col : String) (desc : Bool) (a b c : AssetRow)
    (h₁ : rowLe col desc a b) (h₂ : rowLe col desc b c) :
    rowLe col desc a c := by
  unfold rowLe rowCmp at h₁ h₂ ⊢
  rw [then_isLE] at h₁ h₂ ⊢
  rcases h₁ with h₁ | ⟨h₁, h₁t⟩ <;> rcases h₂ with h₂ | ⟨h₂, h₂t⟩
  · exact Or.inl (primCmp_lt_trans h₁ h₂)
  · exact Or.inl
      ((primCmp_congr_right a (primCmp_eq_iff.mp h₂)).symm.trans h₁)
  · exact Or.inl ((primCmp_congr_left c (primCmp_eq_iff.mp h₁)).trans h₂)
  · refine Or.inr ⟨?_, ?_⟩
    · exact primCmp_eq_iff.mpr
        ((primCmp_eq_iff.mp h₁).trans (primCmp_eq_iff.mp h₂))
    · exact cmpStr_isLE_iff.mpr
        (le_trans (cmpStr_isLE_iff.mp h₁t) (cmpStr_isLE_iff.mp h₂t))

instance rowLeIsTotal (col : String) (desc : Bool) :
    IsTotal AssetRow (rowLe col desc) :=
  ⟨rowLe_total col desc⟩

instance rowLeIsTrans (col : String) (desc : Bool) :
    IsTrans AssetRow (rowLe col desc) :=
  ⟨rowLe_trans col desc⟩

/-- The timestamp column projection. -/
theorem colVal_updated (r : AssetRow) :
    colVal "a.updated_at" r = .n r.updated_at := by
  simp [colVal]

/-- C7: for every listing request, the result is a permutation of the
filtered rows; whenever two consecutive rows tie on the requested sort
column the asset tags ascend (the secondary tie-break is always applied);
with a leading dash the primary column values descend; and concretely for
sort="-updated" consecutive rows have strictly descending `updated_at` or
equal `updated_at` with ascending `asset_tag`. -/
theorem list_assets_sort_spec (rows : List AssetRow) (q : Option String)
    (status : Option (List String)) (type : Option (List String))
    (owner_org_unit_id : Option Int) (assigned : Option Bool) :
    (∀ sort,
      (list_assets rows q status type owner_org_unit_id assigned sort).Perm
        (rows.filter (rowMatches q status type owner_org_unit_id assigned))) ∧
    (∀ sort,
      (list_assets rows q status type owner_org_unit_id assigned
          sort).Pairwise (fun a b =>
        colVal (orderColumn sort) a = colVal (orderColumn sort) b →
          a.asset_tag ≤ b.asset_tag)) ∧
    (∀ sort, sortDesc sort = true →
      (list_assets rows q status type owner_org_unit_id assigned
          sort).Pairwise (fun a b =>
        ((colVal (orderColumn sort) b).cmp
          (colVal (orderColumn sort) a)).isLE = true)) ∧
    (list_assets rows q status type owner_org_unit_id assigned
        "-updated").Pairwise (fun a b =>
      b.updated_at < a.updated_at ∨
        (b.updated_at = a.updated_at ∧ a.asset_tag ≤ b.asset_tag)) := by
  have hsorted : ∀ sort,
      (list_assets rows q status type owner_org_unit_id assigned
        sort).Pairwise (rowLe (orderColumn sort) (sortDesc sort)) :=
    fun sort => List.sorted_insertionSort
      (rowLe (orderColumn sort) (sortDesc sort))
      (rows.filter (rowMatches q status type owner_org_unit_id assigned))
  refine ⟨?_, ?_, ?_, ?_⟩
  · exact fun sort => List.perm_insertionSort
      (rowLe (orderColumn sort) (sortDesc sort))
      (rows.filter (rowMatches q status type owner_org_unit_id assigned))
  · intro sort
    refine (hsorted sort).imp ?_
    intro a b h hcv
    unfold rowLe rowCmp at h
    rw [then_isLE] at h
    rcases h with h | ⟨_, ht⟩
    · have he := (@primCmp_eq_iff (orderColumn sort) (sortDesc sort)
        a b).mpr hcv
      rw [h] at he
      cases he
    · exact cmpStr_isLE_iff.mp ht
  · intro sort hdesc
    refine (hsorted sort).imp ?_
    intro a b h
    unfold rowLe rowCmp at h
    rw [then_isLE] at h
    rw [hdesc] at h
    have hp : (primCmp (orderColumn sort) true a b).isLE = true := by
      rcases h with h | ⟨h, _⟩ <;> rw [h] <;> rfl
    simpa only [primCmp] using hp
  · refine (hsorted "-updated").imp ?_
    intro a b h
    have hcol : orderColumn "-updated" = "a.updated_at" := by decide
    have hdesc : sortDesc "-updated" = true := by decide
    rw [hcol, hdesc] at h
    unfold rowLe rowCmp at h
    rw [then_isLE] at h
    simp only [primCmp, colVal_updated] at h
    rcases h with h | ⟨h, ht⟩
    · exact Or.inl (cmpLin_lt_iff.mp h)
    · exact Or.inr ⟨cmpLin_eq_iff.mp h, cmpStr_isLE_iff.mp ht⟩

/-- A listing row with the older timestamp. -/
def rowOld : AssetRow :=
  { asset_id := 1
    asset_tag := "A"
    type := "Laptop"
    status := "in_stock"
    updated_at := 10 }

/-- A listing row with the newer timestamp. -/
def rowNew : AssetRow :=
  { asset_id := 2
    asset_tag := "B"
    type := "Laptop"
    status := "in_use"
    updated_at := 20 }

/-- Witness for C7: the descending-direction and descending-updated parts
at a concrete two-row listing. -/
theorem list_assets_sort_spec_witness :
    (list_assets [rowOld, rowNew] none none none none none
        "-updated").Pairwise (fun a b =>
      ((colVal (orderColumn "-updated") b).cmp
        (colVal (orderColumn "-updated") a)).isLE = true) ∧
    (list_assets [rowOld, rowNew] none none none none none
        "-updated").Pairwise (fun a b =>
      b.updated_at < a.updated_at ∨
        (b.updated_at = a.updated_at ∧ a.asset_tag ≤ b.asset_tag)) :=
  ⟨(list_assets_sort_spec [rowOld, rowNew] none none none none
      none).2.2.1 "-updated" (by decide),
   (list_assets_sort_spec [rowOld, rowNew] none none none none
      none).2.2.2⟩

/-- C4 counterexample: "-zzz" is unrecognized (dash-stripped it is not a
whitelist key), yet the listing is not identical to sort="asset_tag" —
the fallback column is asset_tag but the leading dash still flips the
direction to descending. -/
theorem list_assets_unknown_sort_cex :
    (lstripDash "-zzz" ∉ SORT_COLUMNS.map Prod.fst ∧
      "-zzz" ∉ SORT_COLUMNS.map Prod.fst) ∧
    list_assets [rowOld, rowNew] none none none none none "-zzz" ≠
      list_assets [rowOld, rowNew] none none none none none "asset_tag" := by
  decide

/-- C4 amended: a sort value whose dash-stripped key is unrecognized falls
back to the asset-tag column, but keeps the direction derived from the
leading dash: without a leading dash it behaves exactly like
sort="asset_tag", with one it behaves exactly like sort="-asset_tag". -/
theorem list_assets_unknown_sort_amended (sort : String)
    (h : lstripDash sort ∉ SORT_COLUMNS.map Prod.fst)
    (rows : List AssetRow) (q : Option String)
    (status : Option (List String)) (type : Option (List String))
    (owner_org_unit_id : Option Int) (assigned : Option Bool) :
    list_assets rows q status type owner_org_unit_id assigned sort =
      list_assets rows q status type owner_org_unit_id assigned
        (if sortDesc sort = true then "-asset_tag" else "asset_tag") := by
  have hcol : orderColumn sort = "a.asset_tag" := by
    unfold orderColumn
    rw [List.lookup_eq_none_iff.mpr ?_]
    · rfl
    · intro p hp
      simp only [bne_iff_ne, ne_eq]
      intro he
      exact h (by rw [he]; exact List.mem_map_of_mem Prod.fst hp)
  unfold list_assets
  cases hd : sortDesc sort
  · rw [hcol,
      show (if false = true then "-asset_tag" else "asset_tag") =
        "asset_tag" from rfl,
      show orderColumn "asset_tag" = "a.asset_tag" from by decide,
      show sortDesc "asset_tag" = false from by decide]
  · rw [hcol,
      show (if true = true then "-asset_tag" else "asset_tag") =
        "-asset_tag" from rfl,
      show orderColumn "-asset_tag" = "a.asset_tag" from by decide,
      show sortDesc "-asset_tag" = true from by decide]

/-- Witness for C4 (amended) at the unrecognized key "-zzz". -/
theorem list_assets_unknown_sort_amended_witness :
    list_assets [rowOld, rowNew] none none none none none "-zzz" =
      list_assets [rowOld, rowNew] none none none none none "-asset_tag" := by
  have h := list_assets_unknown_sort_amended "-zzz" (by decide)
    [rowOld, rowNew] none none none none none
  rw [show (if sortDesc "-zzz" = true then "-asset_tag" else "asset_tag") =
      "-asset_tag" from by decide] at h
  exact h

end Assetman
